import Mathlib

/-!
# Verification of the Luma door-unlocker (Raspberry Pi QR check-in terminal)

Shallow embedding of the program's core logic:

* `src/storage/credentials_manager.py` — the on-disk credential store
  (`load_credentials`, `get_auth_session_key`, `has_valid_credentials`,
  `save_credentials`).
* `src/auth/luma_client.py` — the session client (`authenticate`,
  `check_in_to_event`) and the check-in orchestrator (`handle_check_in_flow`).
* `src/camera/qr_scanner.py` — the payload parser (`is_valid_luma_qr`,
  `extract_event_and_proxy_key`), the per-frame decode loop (`scan_qr_code`)
  and the stop operation (`stop_scanning`).

Modelling conventions:

* Python exceptions are modelled with `Except PyError`; a Python function
  whose body is wrapped in `try/except` and returns a value on the `except`
  path is embedded as a total function, while a function that can let an
  exception escape returns `Except`.
* External effects (the HTTP requests of `requests.Session`, the barcode
  decoder, the clock) are passed in as explicit oracle values describing the
  outcome of each call, matching the call sites of the source one for one.
* Timestamps (`time.time()` floats) are modelled as exact rationals.
* Python string operations (`startswith`, slicing by `len`, `in`,
  `split(sep)` / `split(sep, 1)`) are embedded over the character list of
  the string; `split` is expressed via `splitFirst`, which finds the first
  occurrence of a separator, exactly as the source only ever uses the first
  one or two fields of a split.
-/

namespace LumaDoor

/-- The Python exception classes that the repository's code raises itself:
`load_credentials` re-raises corrupt JSON as `ValueError` and other I/O
failures as `RuntimeError` (src/storage/credentials_manager.py, lines 64-69). -/
inductive PyError where
  | valueError
  | runtimeError
  deriving DecidableEq, Repr

/-! ## Credential store (src/storage/credentials_manager.py)

The credentials file is a JSON object; `authenticate` only ever writes
string-valued fields, so the file content is modelled as a list of
string pairs (first binding wins, as in a Python dict). -/

/-- State of the on-disk credentials file:
absent, unreadable (I/O error on open/read), holding corrupt JSON, or holding
a JSON object with string fields. -/
inductive Store where
  | absent
  | corrupt
  | unreadable
  | object (fields : List (String × String))
  deriving DecidableEq, Repr

/-- `CredentialsManager.load_credentials` (lines 48-69): `None` when the file
does not exist; raises `ValueError` on corrupt JSON (the `json.JSONDecodeError`
branch) and `RuntimeError` on any other failure; otherwise the parsed dict. -/
def load_credentials : Store → Except PyError (Option (List (String × String)))
  | .absent => .ok none
  | .corrupt => .error .valueError
  | .unreadable => .error .runtimeError
  | .object fields => .ok (some fields)

/-- `CredentialsManager.get_auth_session_key` (lines 71-80):
`credentials.get("auth_session_key") if credentials else None`, where an
empty dict is falsy. Exceptions from `load_credentials` propagate. -/
def get_auth_session_key (s : Store) : Except PyError (Option String) :=
  match load_credentials s with
  | .error e => .error e
  | .ok credentials =>
    .ok (match credentials with
      | none => none
      | some fields =>
        if fields.isEmpty then none else fields.lookup "auth_session_key")

/-- `CredentialsManager.has_valid_credentials` (lines 82-96): false when the
loaded dict is `None` or falsy (empty); otherwise requires both the
`auth_session_key` and `user_id` keys to be present. Exceptions from
`load_credentials` propagate. -/
def has_valid_credentials (s : Store) : Except PyError Bool :=
  match load_credentials s with
  | .error e => .error e
  | .ok none => .ok false
  | .ok (some fields) =>
    if fields.isEmpty then .ok false
    else .ok ((fields.lookup "auth_session_key").isSome
              && (fields.lookup "user_id").isSome)

/-! ## Session client (src/auth/luma_client.py) -/

/-- Python truthiness of an optional string: `None` and `""` are falsy. -/
def pyTruthy : Option String → Bool
  | none => false
  | some s => !s.isEmpty

/-- The parsed JSON body of the get-guest response restricted to the fields
the code reads: `guest.name`, `guest.email`, `guest.last_checked_in_at`
(each may be absent). -/
structure Guest where
  name : Option String
  email : Option String
  last_checked_in_at : Option String
  deriving DecidableEq, Repr

/-- Outcome of the one `session.get` performed by `check_in_to_event`:
either the request raised (network fault), or a response arrived with a
status code and a body. The body is `none` when `response.json()` raises
(empty/unparseable body); otherwise it carries the optional `"guest"`
field of the parsed object. -/
inductive CheckInHttp where
  | raised
  | response (status : Nat) (body : Option (Option Guest))
  deriving DecidableEq, Repr

/-- Outcome of the sign-in POST as seen by `authenticate`:
`_sign_in_with_password` (lines 64-87) catches every exception, including the
`raise_for_status` of a non-2xx reply, and returns `None`; so the oracle is
either `failed` or a response carrying its cookie jar (name/value pairs). -/
inductive SignInHttp where
  | failed
  | response (cookies : List (String × String))
  deriving DecidableEq, Repr

/-- `LumaClient._extract_auth_session_key` (lines 89-109): the first cookie
named `luma.auth-session-key`, or `None`. -/
def extract_auth_session_key (cookies : List (String × String)) : Option String :=
  cookies.lookup "luma.auth-session-key"

/-- Result of one `authenticate` call: the returned boolean, the credential
store after the call, and whether the store was written during the call.
`save_credentials` (src/storage/credentials_manager.py, lines 22-46) is
modelled at its contract granularity: the write either completes or raises
`RuntimeError` leaving the stored credential as it was. -/
structure AuthResult where
  ok : Bool
  store : Store
  store_written : Bool
  deriving DecidableEq, Repr

/-- `LumaClient.authenticate` (lines 25-62): sign in; on a `None` response
return `False`; extract the session cookie, a missing or falsy value is
`False`; save `{auth_session_key, user_id: "", email}` and return `True`.
The surrounding `try/except` turns any exception — in particular a failing
`save_credentials` — into `False`. -/
def authenticate (signIn : SignInHttp) (saveOk : Bool) (store : Store)
    (email : String) : AuthResult :=
  match signIn with
  | .failed => ⟨false, store, false⟩
  | .response cookies =>
    match extract_auth_session_key cookies with
    | none => ⟨false, store, false⟩
    | some key =>
      if key.isEmpty then ⟨false, store, false⟩
      else if saveOk then
        ⟨true,
         .object [("auth_session_key", key), ("user_id", ""), ("email", email)],
         true⟩
      else ⟨false, store, false⟩

/-- `LumaClient.check_in_to_event` (lines 111-178): load the session key
(any exception is caught by the method's `except Exception` and becomes
`False`; a missing or empty key is `False`); perform the get-guest request;
status 401 and 404 are `False`; `raise_for_status` raises for any status in
[400, 600), and every branch of the `HTTPError` handler returns `False`;
an unparseable body (`response.json()` raising) is `False`; otherwise the
method returns `True` — the `last_checked_in_at` field only selects which
message is logged. -/
def check_in_to_event (store : Store) (http : CheckInHttp) : Bool :=
  match get_auth_session_key store with
  | .error _ => false
  | .ok key =>
    if !pyTruthy key then false
    else match http with
      | .raised => false
      | .response status body =>
        if status = 401 then false
        else if status = 404 then false
        else if 400 ≤ status && status < 600 then false
        else match body with
          | none => false
          | some _ => true

instance {ε α : Type} [DecidableEq ε] [DecidableEq α] : DecidableEq (Except ε α) :=
  fun x y =>
    match x, y with
    | .error a, .error b =>
      if h : a = b then .isTrue (by rw [h]) else .isFalse (by simp [h])
    | .ok a, .ok b =>
      if h : a = b then .isTrue (by rw [h]) else .isFalse (by simp [h])
    | .error _, .ok _ => .isFalse (by simp)
    | .ok _, .error _ => .isFalse (by simp)

/-- Observable trace of one `handle_check_in_flow` invocation: the value it
returns to its caller (or the exception it lets escape), together with how
many times `authenticate` and `check_in_to_event` were invoked. -/
structure FlowResult where
  result : Except PyError Bool
  authCalls : Nat
  checkInCalls : Nat
  deriving DecidableEq, Repr

/-- The re-authenticate-and-retry tail of `handle_check_in_flow`
(lines 231-239): authenticate; on failure return `False`; on success retry
`check_in_to_event` once and return whatever it reports.
`priorCheckIns` counts the check-in calls already made by the flow. -/
def reauth_and_retry (store : Store) (nextHttp : CheckInHttp)
    (signIn : SignInHttp) (saveOk : Bool) (email : String)
    (priorCheckIns : Nat) : FlowResult :=
  let a := authenticate signIn saveOk store email
  if a.ok then
    ⟨.ok (check_in_to_event a.store nextHttp), 1, priorCheckIns + 1⟩
  else
    ⟨.ok false, 1, priorCheckIns⟩

/-- `LumaClient.handle_check_in_flow` (lines 210-239): if
`has_valid_credentials()` — called outside any `try` block, so its
exceptions escape to the caller — reports stored credentials, try
`check_in_to_event` once and return `True` if it succeeded; otherwise
(first attempt failed, or no valid credentials) re-authenticate and, on
success, retry once. `https` lists the outcomes of the successive get-guest
requests: the i-th `check_in_to_event` invocation consumes entry i. -/
def handle_check_in_flow (store : Store) (https : List CheckInHttp)
    (signIn : SignInHttp) (saveOk : Bool) (email : String) : FlowResult :=
  match has_valid_credentials store with
  | .error e => ⟨.error e, 0, 0⟩
  | .ok true =>
    if check_in_to_event store (https.headD .raised) then ⟨.ok true, 0, 1⟩
    else reauth_and_retry store ((https.drop 1).headD .raised) signIn saveOk email 1
  | .ok false =>
    reauth_and_retry store (https.headD .raised) signIn saveOk email 0

/-! ## QR scanner (src/camera/qr_scanner.py) -/

/-- First occurrence of `sep` in `s`, as the pair (characters before it,
characters after it); `none` when `sep` does not occur. This is the
primitive behind the embeddings of Python's `sep in s`, `s.split(sep, 1)`
and the `[0]`/`[1]` indexing of `s.split(sep)` used by the source. -/
def splitFirst (sep : List Char) : List Char → Option (List Char × List Char)
  | [] => if sep.isEmpty then some ([], []) else none
  | c :: rest =>
    if sep.isPrefixOf (c :: rest) then some ([], (c :: rest).drop sep.length)
    else match splitFirst sep rest with
      | some (pre, post) => some (c :: pre, post)
      | none => none

/-- Python `sep in s`. -/
def pyContains (s sep : String) : Bool :=
  (splitFirst sep.toList s.toList).isSome

/-- Python `s.split(sep, 1)` for a separator known to occur in `s`
(the source always guards the split with an `in` check):
the text before the first occurrence and the text after it. -/
def pySplit1 (s sep : String) : String × String :=
  match splitFirst sep.toList s.toList with
  | some (pre, post) => (pre.asString, post.asString)
  | none => (s, "")

/-- Python `s.split(sep)[0]`: the text before the first occurrence of
`sep`, or all of `s` when `sep` does not occur. -/
def pySplitHead (s sep : String) : String :=
  match splitFirst sep.toList s.toList with
  | some (pre, _) => pre.asString
  | none => s

/-- The default of `qr_config.get("url_pattern", ...)`
(src/utils/config.py, lines 45-54). -/
def defaultUrlPattern : String := "https://lu.ma/check-in/"

/-- `QRScanner.is_valid_luma_qr` (lines 194-238): prefix check, `?pk=`
containment check on the whole payload, non-empty remainder, `evt-` prefix of
`remaining.split("?pk=")[0]`, and `g-` prefix of
`remaining.split("?pk=")[1].split("&")[0]`. Indexing `[1]` when `remaining`
has no `?pk=` raises `IndexError`, which the method's `except` turns into
`False`. -/
def is_valid_luma_qr (url_pattern qr_data : String) : Bool :=
  if !url_pattern.toList.isPrefixOf qr_data.toList then false
  else if !pyContains qr_data "?pk=" then false
  else
    let remaining := (qr_data.toList.drop url_pattern.length).asString
    if remaining.isEmpty then false
    else
      let event_part := pySplitHead remaining "?pk="
      if !"evt-".toList.isPrefixOf event_part.toList then false
      else
        match splitFirst "?pk=".toList remaining.toList with
        | none => false
        | some (_, post) =>
          let proxy_part := pySplitHead post.asString "&"
          "g-".toList.isPrefixOf proxy_part.toList

/-- `QRScanner.extract_event_and_proxy_key` (lines 240-273): prefix check,
`?pk=` containment check on the remainder, then
`event_id, query_params = remaining.split("?pk=", 1)` and
`proxy_key = query_params.split("&")[0]`; failure is `(None, None)`. -/
def extract_event_and_proxy_key (url_pattern qr_data : String) :
    Option String × Option String :=
  if !url_pattern.toList.isPrefixOf qr_data.toList then (none, none)
  else
    let remaining := (qr_data.toList.drop url_pattern.length).asString
    if !pyContains remaining "?pk=" then (none, none)
    else
      let (event_id, query_params) := pySplit1 remaining "?pk="
      let proxy_key := pySplitHead query_params "&"
      (some event_id, some proxy_key)

/-- The de-duplication state of the scanner: `self.last_detected_qr` and
`self.last_detection_time` (lines 23-24). `self.duplicate_threshold` is the
constant `2.0` (line 25). -/
structure ScanState where
  last_detected_qr : Option String
  last_detection_time : ℚ
  deriving DecidableEq, Repr

/-- `self.duplicate_threshold` (line 25): seconds during which an identical
payload is suppressed. -/
def duplicate_threshold : ℚ := 2

/-- The inner `for qr_code in qr_codes` loop of `scan_qr_code`
(lines 152-182), processing the decoded detections of one preprocessed
variant at time `t`. A detection is `none` when `qr_code.data.decode`
raised `UnicodeDecodeError` (skipped). A detection equal to
`last_detected_qr` within `duplicate_threshold` of `last_detection_time`
is skipped without touching the state; any other detection is recorded in
the state, and returned iff `is_valid_luma_qr` accepts it. -/
def process_detections (url_pattern : String) (t : ℚ) :
    List (Option String) → ScanState → Option String × ScanState
  | [], st => (none, st)
  | none :: rest, st => process_detections url_pattern t rest st
  | some qr_data :: rest, st =>
    if st.last_detected_qr = some qr_data
        ∧ t - st.last_detection_time < duplicate_threshold then
      process_detections url_pattern t rest st
    else
      let st' : ScanState := ⟨some qr_data, t⟩
      if is_valid_luma_qr url_pattern qr_data then (some qr_data, st')
      else process_detections url_pattern t rest st'

/-- `QRScanner.scan_qr_code` (lines 131-192): walk the preprocessed variants
in order; process each variant's detections; return as soon as a variant's
processing produced a payload, otherwise carry the updated de-duplication
state into the next variant. A variant on which the decode library raised
behaves like a variant with no detections (its `except` clause does
`continue`). -/
def scan_qr_code (url_pattern : String) (t : ℚ) :
    List (List (Option String)) → ScanState → Option String × ScanState
  | [], st => (none, st)
  | variant :: rest, st =>
    match process_detections url_pattern t variant st with
    | (some qr_data, st') => (some qr_data, st')
    | (none, st') => scan_qr_code url_pattern t rest st'

/-- The fields of `QRScanner` touched by `stop_scanning`: the camera handle
(`self.camera`, `None` when released) and the running flag
(`self.is_running`). -/
structure ScannerState where
  camera : Option Nat
  is_running : Bool
  scan : ScanState
  deriving DecidableEq, Repr

/-- `QRScanner.stop_scanning` (lines 357-366): clear the running flag,
release the camera handle if one is held and drop it. Every operation in
the body is total — the `if self.camera:` guard makes the release safe when
no handle is held — so the embedding is a total function. -/
def stop_scanning (s : ScannerState) : ScannerState :=
  { s with is_running := false, camera := none }

/-! ## Shared concrete inputs and helper lemmas -/

/-- A credentials file holding both required fields, as written by a past
successful authentication. -/
def sampleStore : Store :=
  .object [("auth_session_key", "key1"), ("user_id", "u1"), ("email", "e")]

/-- The spec's example payload. -/
def samplePayload : String := "https://lu.ma/check-in/evt-ABC123?pk=g-XYZ789"

/-- Whether the stored credential yields a truthy session key at check-in
time: `get_auth_session_key` neither raised nor returned a falsy
(missing/empty) value. Derived notion used to state what
`check_in_to_event` returns. -/
def credential_truthy (store : Store) : Bool :=
  match get_auth_session_key store with
  | .error _ => false
  | .ok key => pyTruthy key

/-- A parseable get-guest body whose guest has no last_checked_in_at. -/
def freshGuestBody : Option (Option Guest) := some (some ⟨some "N", some "E", none⟩)

lemma check_in_to_event_404 (store : Store) (b : Option (Option Guest)) :
    check_in_to_event store (.response 404 b) = false := by
  unfold check_in_to_event
  cases get_auth_session_key store with
  | error e => rfl
  | ok key => cases pyTruthy key <;> simp

lemma check_in_to_event_401 (store : Store) (b : Option (Option Guest)) :
    check_in_to_event store (.response 401 b) = false := by
  unfold check_in_to_event
  cases get_auth_session_key store with
  | error e => rfl
  | ok key => cases pyTruthy key <;> simp

lemma reauth_and_retry_authCalls (store : Store) (nextHttp : CheckInHttp)
    (signIn : SignInHttp) (saveOk : Bool) (email : String) (prior : Nat) :
    (reauth_and_retry store nextHttp signIn saveOk email prior).authCalls = 1 := by
  cases h : (authenticate signIn saveOk store email).ok <;>
    simp [reauth_and_retry, h]

lemma flow_with_creds_failed_first (store : Store) (o http2 : CheckInHttp)
    (signIn : SignInHttp) (saveOk : Bool) (email : String)
    (h : has_valid_credentials store = .ok true)
    (hfail : check_in_to_event store o = false) :
    handle_check_in_flow store [o, http2] signIn saveOk email
      = reauth_and_retry store http2 signIn saveOk email 1 := by
  unfold handle_check_in_flow
  rw [h]
  simp [hfail]

lemma flow_calls_bound (store : Store) (https : List CheckInHttp)
    (signIn : SignInHttp) (saveOk : Bool) (email : String) :
    (handle_check_in_flow store https signIn saveOk email).authCalls ≤ 1
    ∧ (handle_check_in_flow store https signIn saveOk email).checkInCalls ≤ 2 := by
  unfold handle_check_in_flow
  cases has_valid_credentials store with
  | error e => simp
  | ok b =>
    cases b with
    | false =>
      cases h : (authenticate signIn saveOk store email).ok <;>
        simp [reauth_and_retry, h]
    | true =>
      cases hc : check_in_to_event store (https.headD .raised) with
      | true => simp [hc]
      | false =>
        cases h : (authenticate signIn saveOk store email).ok <;>
          simp [hc, reauth_and_retry, h]

/-! ## Claims about the check-in flow and session client -/

/-- C1 counterexample: with a stored credential and a check-in call that
reports HTTP 404 (guest not found), `handle_check_in_flow` does NOT treat
the outcome as terminal: `authenticate` is called once during the
invocation, contradicting the claim that the flow terminates with
GuestNotFound and never calls `authenticate`. -/
theorem flow_404_calls_authenticate :
    has_valid_credentials sampleStore = .ok true
    ∧ (handle_check_in_flow sampleStore [.response 404 none, .response 404 none]
        .failed true "e").authCalls = 1 := by
  decide

/-- C1 amended: with a stored credential, a first check-in attempt that
fails — in particular one whose request reported HTTP 404 — does not end
the flow: the flow re-authenticates (exactly one `authenticate` call) and,
when authentication succeeds, retries check-in once, returning the retry's
boolean result; a 404 response always makes `check_in_to_event` report
failure. -/
theorem flow_failed_attempt_reauthenticates (store : Store)
    (b : Option (Option Guest)) (o http2 : CheckInHttp)
    (signIn : SignInHttp) (saveOk : Bool) (email : String)
    (h : has_valid_credentials store = .ok true)
    (hfail : check_in_to_event store o = false) :
    check_in_to_event store (.response 404 b) = false
    ∧ handle_check_in_flow store [o, http2] signIn saveOk email
        = reauth_and_retry store http2 signIn saveOk email 1
    ∧ (handle_check_in_flow store [o, http2] signIn saveOk email).authCalls = 1 := by
  refine ⟨check_in_to_event_404 store b, flow_with_creds_failed_first store o http2 signIn saveOk email h hfail, ?_⟩
  rw [flow_with_creds_failed_first store o http2 signIn saveOk email h hfail]
  exact reauth_and_retry_authCalls store http2 signIn saveOk email 1

/-- C1 amended, witness: the flow at the concrete 404 scenario. -/
theorem flow_failed_attempt_reauthenticates_witness :
    check_in_to_event sampleStore (.response 404 none) = false
    ∧ handle_check_in_flow sampleStore [.response 404 none, .response 404 none]
        .failed true "e"
        = reauth_and_retry sampleStore (.response 404 none) .failed true "e" 1
    ∧ (handle_check_in_flow sampleStore [.response 404 none, .response 404 none]
        .failed true "e").authCalls = 1 :=
  flow_failed_attempt_reauthenticates sampleStore none (.response 404 none)
    (.response 404 none) .failed true "e" (by decide) (by decide)

/-- C2: with a stored credential, a first check-in request answered 401,
a succeeding authentication and a succeeding retried check-in, the flow
returns success (True) having called `authenticate` exactly once and
`check_in_to_event` exactly twice; in every invocation the flow performs
at most one `authenticate` call and at most two `check_in_to_event` calls;
and a second 401 on the retry after fresh authentication makes the flow
report failure (False) rather than retry again. -/
theorem flow_auth_expired_then_success (store : Store)
    (b b2 : Option (Option Guest)) (http2 : CheckInHttp)
    (signIn : SignInHttp) (saveOk : Bool) (email : String)
    (h : has_valid_credentials store = .ok true)
    (hauth : (authenticate signIn saveOk store email).ok = true)
    (hretry : check_in_to_event (authenticate signIn saveOk store email).store http2
        = true) :
    handle_check_in_flow store [.response 401 b, http2] signIn saveOk email
      = ⟨.ok true, 1, 2⟩
    ∧ (∀ (store' : Store) (https : List CheckInHttp) (signIn' : SignInHttp)
        (saveOk' : Bool) (email' : String),
        (handle_check_in_flow store' https signIn' saveOk' email').authCalls ≤ 1
        ∧ (handle_check_in_flow store' https signIn' saveOk' email').checkInCalls ≤ 2)
    ∧ handle_check_in_flow store [.response 401 b, .response 401 b2] signIn saveOk email
      = ⟨.ok false, 1, 2⟩ := by
  refine ⟨?_, fun store' https signIn' saveOk' email' =>
      flow_calls_bound store' https signIn' saveOk' email', ?_⟩
  · rw [flow_with_creds_failed_first store (.response 401 b) http2 signIn saveOk email h
      (check_in_to_event_401 store b)]
    simp [reauth_and_retry, hauth, hretry]
  · rw [flow_with_creds_failed_first store (.response 401 b) (.response 401 b2)
      signIn saveOk email h (check_in_to_event_401 store b)]
    simp [reauth_and_retry, hauth,
      check_in_to_event_401 (authenticate signIn saveOk store email).store b2]

/-- C2 witness: concrete 401-then-success run; the sign-in response carries
the session cookie and the save succeeds. -/
theorem flow_auth_expired_then_success_witness :
    handle_check_in_flow sampleStore
      [.response 401 none, .response 200 freshGuestBody]
      (.response [("luma.auth-session-key", "key2")]) true "e"
      = ⟨.ok true, 1, 2⟩
    ∧ handle_check_in_flow sampleStore
      [.response 401 none, .response 401 none]
      (.response [("luma.auth-session-key", "key2")]) true "e"
      = ⟨.ok false, 1, 2⟩ :=
  ⟨(flow_auth_expired_then_success sampleStore none none
      (.response 200 freshGuestBody)
      (.response [("luma.auth-session-key", "key2")]) true "e"
      (by decide) (by decide) (by decide)).1,
   (flow_auth_expired_then_success sampleStore none none
      (.response 200 freshGuestBody)
      (.response [("luma.auth-session-key", "key2")]) true "e"
      (by decide) (by decide) (by decide)).2.2⟩

/-- C3 counterexample: `check_in_to_event` returns a plain boolean, not a
tagged CheckInResult. With a stored credential, an HTTP 401 (AuthExpired)
and an HTTP 404 (GuestNotFound) produce the identical return value, and a
2xx body with `last_checked_in_at` present produces the same return value
as one without it — so the four spec outcomes are not distinguishable by
the caller and no alreadyCheckedIn flag is surfaced. -/
theorem check_in_outcomes_collapse :
    check_in_to_event sampleStore (.response 401 none)
      = check_in_to_event sampleStore (.response 404 none)
    ∧ check_in_to_event sampleStore
        (.response 200 (some (some ⟨some "N", some "E", some "2025-01-01T00:00:00Z"⟩)))
      = check_in_to_event sampleStore (.response 200 freshGuestBody)
    ∧ check_in_to_event sampleStore (.response 401 none) = false := by
  decide

/-- C3 amended: `check_in_to_event` classifies the HTTP outcome exactly as
the spec's table internally, but collapses it to a boolean: it returns True
precisely when a truthy credential is stored, the request did not raise,
the status is neither 401 nor 404 nor any other code in [400, 600), and the
body parses; every other outcome — including 401, 404, transport faults and
unparseable bodies — returns False, and the `last_checked_in_at` field
affects only logging, never the returned value. -/
theorem check_in_bool_characterization (store : Store) (status : Nat)
    (body : Option (Option Guest)) :
    (check_in_to_event store (.response status body) = true
      ↔ credential_truthy store = true ∧ status ≠ 401 ∧ status ≠ 404
        ∧ ¬(400 ≤ status ∧ status < 600) ∧ body.isSome = true)
    ∧ check_in_to_event store .raised = false := by
  constructor
  · unfold check_in_to_event credential_truthy
    cases get_auth_session_key store with
    | error e => simp
    | ok key =>
      cases hk : pyTruthy key with
      | false => simp [hk]
      | true =>
        by_cases h1 : status = 401
        · simp [hk, h1]
        · by_cases h2 : status = 404
          · simp [hk, h1, h2]
          · by_cases h3 : 400 ≤ status ∧ status < 600
            · have hb : (decide (400 ≤ status) && decide (status < 600)) = true := by
                simp only [Bool.and_eq_true, decide_eq_true_eq]
                exact h3
              simp [hk, h1, h2, h3.1, h3.2, hb]
            · have hb : (decide (400 ≤ status) && decide (status < 600)) ≠ true := by
                simp only [ne_eq, Bool.and_eq_true, decide_eq_true_eq]
                exact h3
              cases body <;> simp [hk, h1, h2, h3, hb]
  · unfold check_in_to_event
    cases get_auth_session_key store with
    | error e => rfl
    | ok key => cases pyTruthy key <;> simp

/-- C4: when the stored credentials file contains corrupt JSON,
`load_credentials` re-raises the JSON decode failure as a `ValueError`,
`has_valid_credentials` does not catch it, and `handle_check_in_flow` calls
`has_valid_credentials` outside any try block — so the complete check-in
flow propagates the `ValueError` to its caller instead of returning an
error result: the flow's observable outcome is the escaped exception, with
neither `authenticate` nor `check_in_to_event` ever invoked. -/
theorem flow_corrupt_store_raises (https : List CheckInHttp)
    (signIn : SignInHttp) (saveOk : Bool) (email : String) :
    handle_check_in_flow .corrupt https signIn saveOk email
      = ⟨.error .valueError, 0, 0⟩ := rfl

/-- C10: the credential store is written during an `authenticate` call
exactly when the call returns success; on every failing call — sign-in
failed, no `luma.auth-session-key` cookie (or a falsy one), or the save
raising — the previously stored credential is unchanged. -/
theorem authenticate_store_write_iff (signIn : SignInHttp) (saveOk : Bool)
    (store : Store) (email : String) :
    ((authenticate signIn saveOk store email).store_written = true
      ↔ (authenticate signIn saveOk store email).ok = true)
    ∧ ((authenticate signIn saveOk store email).ok = false →
        (authenticate signIn saveOk store email).store = store) := by
  cases signIn with
  | failed => simp [authenticate]
  | response cookies =>
    rcases h : extract_auth_session_key cookies with _ | key
    · simp [authenticate, h]
    · by_cases hk : key.isEmpty <;> cases saveOk <;> simp [authenticate, h, hk]

/-- C10 witness: a failing sign-in leaves the stored credential untouched,
and the write-iff-success equivalence holds at that input. -/
theorem authenticate_store_write_iff_witness :
    ((authenticate .failed true sampleStore "e").store_written = true
      ↔ (authenticate .failed true sampleStore "e").ok = true)
    ∧ (authenticate .failed true sampleStore "e").ok = false
    ∧ (authenticate .failed true sampleStore "e").store = sampleStore :=
  ⟨(authenticate_store_write_iff .failed true sampleStore "e").1,
   by decide,
   (authenticate_store_write_iff .failed true sampleStore "e").2 (by decide)⟩

/-! ## Claims about the QR scanner -/

/-- C5: the example payload parses to eventId evt-ABC123 and proxyKey
g-XYZ789, and appending an extra query parameter changes nothing: the
proxy-key token is cut at the first ampersand. -/
theorem extract_example_payload :
    extract_event_and_proxy_key defaultUrlPattern
      "https://lu.ma/check-in/evt-ABC123?pk=g-XYZ789"
      = (some "evt-ABC123", some "g-XYZ789")
    ∧ extract_event_and_proxy_key defaultUrlPattern
      "https://lu.ma/check-in/evt-ABC123?pk=g-XYZ789&extra=1"
      = (some "evt-ABC123", some "g-XYZ789") := by
  decide

/-- C6: any payload that does not start with the configured URL prefix is
rejected by validation and parses to the error result (None, None); both
operations return instead of raising. -/
theorem invalid_prefix_rejected (url_pattern p : String)
    (h : url_pattern.toList.isPrefixOf p.toList = false) :
    is_valid_luma_qr url_pattern p = false
    ∧ extract_event_and_proxy_key url_pattern p = (none, none) := by
  unfold is_valid_luma_qr extract_event_and_proxy_key
  rw [h]
  simp

/-- C6 witness: a payload with the wrong scheme is rejected under the
default configured prefix. -/
theorem invalid_prefix_rejected_witness :
    is_valid_luma_qr defaultUrlPattern "http://evil.example/evt-A?pk=g-B" = false
    ∧ extract_event_and_proxy_key defaultUrlPattern "http://evil.example/evt-A?pk=g-B"
      = (none, none) :=
  invalid_prefix_rejected defaultUrlPattern "http://evil.example/evt-A?pk=g-B"
    (by decide)

/-- C7: a detection whose text equals the most recently recorded payload
and whose time lies within the duplicate window of the recorded time is
suppressed — skipped without being returned (hence never reaching the
callback, which start_scanning invokes only on a returned payload) and
without touching the recorded state, whatever detections follow it; the
same text detected again once the window has elapsed is recorded and, being
a valid payload, returned (emitted) again. -/
theorem duplicate_window_suppression (url_pattern : String) (st : ScanState)
    (s : String) (t t' : ℚ) (rest : List (Option String))
    (hlast : st.last_detected_qr = some s)
    (hwin : t - st.last_detection_time < duplicate_threshold)
    (hgap : duplicate_threshold ≤ t' - st.last_detection_time)
    (hvalid : is_valid_luma_qr url_pattern s = true) :
    process_detections url_pattern t (some s :: rest) st
      = process_detections url_pattern t rest st
    ∧ scan_qr_code url_pattern t [[some s]] st = (none, st)
    ∧ process_detections url_pattern t' (some s :: rest) st
      = (some s, ⟨some s, t'⟩)
    ∧ scan_qr_code url_pattern t' [[some s]] st = (some s, ⟨some s, t'⟩) := by
  have hdup : st.last_detected_qr = some s
      ∧ t - st.last_detection_time < duplicate_threshold := ⟨hlast, hwin⟩
  have hfresh : ¬(st.last_detected_qr = some s
      ∧ t' - st.last_detection_time < duplicate_threshold) := by
    rintro ⟨-, hlt⟩
    exact absurd hgap (not_le.mpr hlt)
  refine ⟨?_, ?_, ?_, ?_⟩
  · rw [process_detections, if_pos hdup]
  · show (match process_detections url_pattern t [some s] st with
      | (some qr_data, st') => (some qr_data, st')
      | (none, st') => scan_qr_code url_pattern t [] st') = (none, st)
    rw [process_detections, if_pos hdup]
    rfl
  · rw [process_detections, if_neg hfresh, if_pos hvalid]
  · show (match process_detections url_pattern t' [some s] st with
      | (some qr_data, st') => (some qr_data, st')
      | (none, st') => scan_qr_code url_pattern t' [] st') = (some s, ⟨some s, t'⟩)
    rw [process_detections, if_neg hfresh, if_pos hvalid]

/-- C7 witness: the example payload, recorded at time 0, is suppressed when
redetected at time 1 (inside the 2-second window) and emitted again when
redetected at time 5. -/
theorem duplicate_window_suppression_witness :
    scan_qr_code defaultUrlPattern 1 [[some samplePayload]]
      ⟨some samplePayload, 0⟩ = (none, ⟨some samplePayload, 0⟩)
    ∧ scan_qr_code defaultUrlPattern 5 [[some samplePayload]]
      ⟨some samplePayload, 0⟩ = (some samplePayload, ⟨some samplePayload, 5⟩) :=
  ⟨(duplicate_window_suppression defaultUrlPattern ⟨some samplePayload, 0⟩
      samplePayload 1 5 [] rfl (by norm_num [duplicate_threshold])
      (by norm_num [duplicate_threshold]) (by decide)).2.1,
   (duplicate_window_suppression defaultUrlPattern ⟨some samplePayload, 0⟩
      samplePayload 1 5 [] rfl (by norm_num [duplicate_threshold])
      (by norm_num [duplicate_threshold]) (by decide)).2.2.2⟩

lemma process_detections_valid (url_pattern : String) (t : ℚ) :
    ∀ (dets : List (Option String)) (st : ScanState) (x : String) (stx : ScanState),
      process_detections url_pattern t dets st = (some x, stx) →
      is_valid_luma_qr url_pattern x = true := by
  intro dets
  induction dets with
  | nil =>
    intro st x stx h
    simp [process_detections] at h
  | cons d rest ih =>
    intro st x stx h
    cases d with
    | none =>
      rw [process_detections] at h
      exact ih st x stx h
    | some q =>
      simp only [process_detections] at h
      by_cases hdup : st.last_detected_qr = some q
          ∧ t - st.last_detection_time < duplicate_threshold
      · rw [if_pos hdup] at h
        exact ih st x stx h
      · rw [if_neg hdup] at h
        by_cases hv : is_valid_luma_qr url_pattern q = true
        · rw [if_pos hv] at h
          injection h with h1 h2
          injection h1 with h1
          subst h1
          exact hv
        · rw [if_neg hv] at h
          exact ih ⟨some q, t⟩ x stx h

lemma scan_qr_code_valid (url_pattern : String) (t : ℚ) :
    ∀ (variants : List (List (Option String))) (st : ScanState)
      (x : String) (stx : ScanState),
      scan_qr_code url_pattern t variants st = (some x, stx) →
      is_valid_luma_qr url_pattern x = true := by
  intro variants
  induction variants with
  | nil =>
    intro st x stx h
    simp [scan_qr_code] at h
  | cons v rest ih =>
    intro st x stx h
    rw [scan_qr_code] at h
    rcases hp : process_detections url_pattern t v st with ⟨r, st'⟩
    rw [hp] at h
    cases r with
    | some y =>
      injection h with h1 h2
      injection h1 with h1
      subst h1
      exact process_detections_valid url_pattern t v st _ st' hp
    | none =>
      exact ih st' x stx h

/-- C8 counterexample: with a fresh de-duplication state, a frame whose
first preprocessed variant yields a (decodable, non-Luma) detection and
whose second variant yields a valid Luma payload makes `scan_qr_code`
return the second variant's payload — the scan considers detections from
later variants even though an earlier variant already detected a code,
contradicting the claim that the first variant with any detections wins. -/
theorem scan_uses_later_variant :
    scan_qr_code defaultUrlPattern 0
      [[some "hello"], [some samplePayload]] ⟨none, 0⟩
      = (some samplePayload, ⟨some samplePayload, 0⟩)
    ∧ samplePayload ≠ "hello" := by
  decide

/-- C8 amended: `scan_qr_code` walks the preprocessed variants in order and
returns the first detection that survives the de-duplication filter and
validates as a Luma payload; a variant whose detections are all skipped
(undecodable, suppressed duplicates, or invalid) does not stop the scan —
later variants are still considered, carrying the updated de-duplication
state — and at most one payload is returned per frame, which always
validates (results of different variants are never merged). -/
theorem scan_first_fresh_valid_detection (url_pattern : String) (t : ℚ)
    (v : List (Option String)) (rest : List (List (Option String)))
    (st st' stx : ScanState) (x : String) :
    (process_detections url_pattern t v st = (some x, stx) →
      scan_qr_code url_pattern t (v :: rest) st = (some x, stx))
    ∧ (process_detections url_pattern t v st = (none, st') →
      scan_qr_code url_pattern t (v :: rest) st
        = scan_qr_code url_pattern t rest st')
    ∧ (scan_qr_code url_pattern t (v :: rest) st = (some x, stx) →
      is_valid_luma_qr url_pattern x = true) := by
  refine ⟨?_, ?_, ?_⟩
  · intro h
    rw [scan_qr_code, h]
  · intro h
    rw [scan_qr_code, h]
  · exact scan_qr_code_valid url_pattern t (v :: rest) st x stx

/-- C8 amended, witness: a single-variant frame containing the valid
example payload is returned as that variant's first fresh valid hit. -/
theorem scan_first_fresh_valid_detection_witness :
    scan_qr_code defaultUrlPattern 0 [[some samplePayload]] ⟨none, 0⟩
      = (some samplePayload, ⟨some samplePayload, 0⟩) :=
  (scan_first_fresh_valid_detection defaultUrlPattern 0 [some samplePayload] []
      ⟨none, 0⟩ ⟨none, 0⟩ ⟨some samplePayload, 0⟩ samplePayload).1 (by decide)

/-- C9: `stop_scanning` is idempotent and total — it never fails, a second
call in a row is accepted from any scanner state and changes nothing, and
after each of the two calls the camera handle is released (absent) and the
running flag is cleared. -/
theorem stop_scanning_idempotent (s : ScannerState) :
    stop_scanning (stop_scanning s) = stop_scanning s
    ∧ (stop_scanning s).camera = none
    ∧ (stop_scanning s).is_running = false
    ∧ (stop_scanning (stop_scanning s)).camera = none
    ∧ (stop_scanning (stop_scanning s)).is_running = false :=
  ⟨rfl, rfl, rfl, rfl, rfl⟩

end LumaDoor
